import Mathlib

/-!
Shallow embedding of the data/analytics engine of `aiko_streamlit.py`
(aiko lyrics sentiment-analysis dashboard): dataset loading with
image-reference extraction, emotion-profile aggregation, cosine-similarity
ranking, and per-emotion ranking views.
-/

namespace Aiko

/-! ### Characters used by the `ast.literal_eval` fragment -/

/-- The single-quote character (written via its code point). -/
def squote : Char := Char.ofNat 39

/-- The double-quote character (written via its code point). -/
def dquote : Char := Char.ofNat 34

/-- Drop leading spaces, as Python literal parsing ignores them. -/
def skipSpaces : List Char → List Char
  | [] => []
  | c :: cs => if c = ' ' then skipSpaces cs else c :: cs

/-- Read the body of a Python string literal up to the closing quote `q`
(no escape sequences, which the data does not use).  Returns the body and
the remaining input, or `none` if the quote is never closed. -/
def readQuoted (q : Char) : List Char → Option (List Char × List Char)
  | [] => none
  | c :: cs =>
    if c = q then some ([], cs)
    else (readQuoted q cs).map (fun p => (c :: p.1, p.2))

/-- Parse the comma-separated string elements of a Python list literal,
after the opening bracket has been consumed.  Models the fragment of
`ast.literal_eval` exercised by the image-reference columns: a list of
quoted strings.  `fuel` bounds the recursion. -/
def parseElems : Nat → List Char → Option (List String × List Char)
  | 0, _ => none
  | fuel + 1, cs =>
    match skipSpaces cs with
    | [] => none
    | c :: cs1 =>
      if c = ']' then some ([], cs1)
      else if c = squote ∨ c = dquote then
        match readQuoted c cs1 with
        | none => none
        | some (s, rest) =>
          match skipSpaces rest with
          | [] => none
          | d :: rest1 =>
            if d = ',' then
              match parseElems fuel rest1 with
              | none => none
              | some (ss, r) => some (String.mk s :: ss, r)
            else if d = ']' then some ([String.mk s], rest1)
            else none
      else none

/-- `ast.literal_eval` restricted to the shape the source feeds it:
a Python list-of-strings literal.  `none` models the exception raised by
`ast.literal_eval` on malformed input. -/
def literal_eval_strList (s : String) : Option (List String) :=
  match skipSpaces s.data with
  | [] => none
  | c :: cs =>
    if c = '[' then
      match parseElems (cs.length + 1) cs with
      | none => none
      | some (ss, rest) => if skipSpaces rest = [] then some ss else none
    else none

/-- `convert_image_urls` (source lines 17-25):
`ast.literal_eval(ast.literal_eval(row)[0])[0]`.
`none` models an uncaught exception (parse failure of either level, or an
`IndexError` from indexing `[0]` into an empty list); the source has no
`try`/`except` around any step. -/
def convert_image_urls (row : String) : Option String :=
  match literal_eval_strList row with
  | none => none
  | some [] => none
  | some (s :: _) =>
    match literal_eval_strList s with
    | none => none
    | some [] => none
    | some (u :: _) => some u

/-! ### Data model -/

/-- One raw CSV row of the catalog, with the fields of the input schema:
`track_name`, the double-encoded `image_urls` field, the eight
emotion-score columns in `EMOTION_LIST` storage order, and the eight
per-emotion rationale text columns (label + スコアの理由) in the same
order.  The rationale texts are display data, but they are frame columns
and `df.sort_values` accepts them as sort keys. -/
structure RawRecord where
  track_name : String
  image_urls : String
  scores : List ℚ
  reasons : List String
deriving DecidableEq

/-- One loaded catalog row, after `load_df` added the converted image URL
column (and the `曲名` display alias of `track_name`). -/
structure Song where
  track_name : String
  image_urls : String
  converted_image_urls : String
  scores : List ℚ
  reasons : List String
deriving DecidableEq

/-- `load_df` (source lines 114-132): applies `convert_image_urls` to the
`image_urls` field of every row.  An exception on any row (modelled by
`none` from `convert_image_urls`) propagates and aborts the whole load,
exactly as the unguarded `df["image_urls"].apply(convert_image_urls)`
does. -/
def load_df : List RawRecord → Option (List Song)
  | [] => some []
  | r :: rs =>
    match convert_image_urls r.image_urls with
    | none => none
    | some url =>
      match load_df rs with
      | none => none
      | some songs =>
        some ({ track_name := r.track_name, image_urls := r.image_urls,
                converted_image_urls := url, scores := r.scores,
                reasons := r.reasons } :: songs)

/-- `EMOTION_LIST` (source lines 136-145): the storage order of the eight
emotion-score columns. -/
def EMOTION_LIST : List String :=
  ["喜び", "信頼", "恐れ", "驚き", "悲しみ", "嫌悪", "怒り", "期待"]

/-- `EMOTION_GRAPH` (source lines 147-156): the canonical graph-axis order
of the eight emotion labels, used for the aggregated vector and for the
cosine-similarity vectors. -/
def EMOTION_GRAPH : List String :=
  ["恐れ", "信頼", "喜び", "期待", "怒り", "嫌悪", "悲しみ", "驚き"]

/-- Column access `row[e]` on the emotion-score columns: position of the
label `e` among the stored score columns. -/
def labelIdx (e : String) : Option Nat :=
  EMOTION_LIST.findIdx? (fun x => x == e)

/-- The score of song `s` on the emotion column `e` (meaningful exactly
when `e` is one of the eight stored labels). -/
def score (s : Song) (e : String) : ℚ :=
  match labelIdx e with
  | some i => s.scores.getD i 0
  | none => 0

/-! ### Emotion profile aggregation (source lines 264 and 285) -/

/-- Column mean `df[EMOTION_GRAPH].mean()` for one label over a list of
songs, as an exact rational. -/
def meanScore (l : List Song) (e : String) : ℚ :=
  (l.map (fun s => score s e)).sum / (l.length : ℚ)

/-- Integer truncation toward zero, the semantics of pandas
`.astype(int)` on a finite float. -/
def ratTrunc (q : ℚ) : ℤ :=
  if 0 ≤ q then ⌊q⌋ else ⌈q⌉

/-- `values = selected_df[EMOTION_GRAPH].mean().astype(int).to_list()`
(source lines 264 and 285).  On an empty list of songs the column means
are NaN and `.astype(int)` raises (`IntCastingNaNError`), which `none`
models; no default vector is returned. -/
def aggregate (l : List Song) : Option (List ℤ) :=
  if l.isEmpty then none
  else some (EMOTION_GRAPH.map (fun e => ratTrunc (meanScore l e)))

/-! ### Top emotion (source lines 267-273) -/

/-- Insert one pair into a descending-sorted accumulator, passing over
every earlier element whose value is at least as large.  Folding this
over a list from the left realises the observable behaviour of Python
`sorted(key=lambda x: x[1], reverse=True)`: descending by value, equal
values kept in original order (Python sort is stable, and
stability is preserved under `reverse=True`). -/
def pyInsertDesc (x : String × ℤ) : List (String × ℤ) → List (String × ℤ)
  | [] => [x]
  | y :: ys => if y.2 < x.2 then x :: y :: ys else y :: pyInsertDesc x ys

/-- `sorted(emotion_scores, key=lambda x: x[1], reverse=True)`
(source line 270). -/
def pySortedDesc (l : List (String × ℤ)) : List (String × ℤ) :=
  l.foldl (fun acc x => pyInsertDesc x acc) []

/-- The reported top emotion `top_emotions[0]` where
`top_emotions = sorted(zip(EMOTION_GRAPH, values), key=..., reverse=True)[:1]`
(source lines 267-273). -/
def topEmotion (v : List ℤ) : Option (String × ℤ) :=
  (pySortedDesc (EMOTION_GRAPH.zip v)).head?

/-! ### Cosine similarity (sklearn `cosine_similarity`, source line 306) -/

/-- Dot product of two rows. -/
def dotR (u v : List ℝ) : ℝ :=
  (List.zipWith (fun a b => a * b) u v).sum

/-- The divisor used by sklearn `normalize`: the l2 norm of the row,
with a zero norm replaced by 1 (`norms[norms == 0.0] = 1.0`), guarding
the degenerate zero-vector case. -/
noncomputable def guardNorm (u : List ℝ) : ℝ :=
  if dotR u u = 0 then 1 else Real.sqrt (dotR u u)

/-- sklearn `normalize` of one row. -/
noncomputable def normalizeRow (u : List ℝ) : List ℝ :=
  u.map (fun a => a / guardNorm u)

/-- sklearn `cosine_similarity` of two rows: the dot product of the
l2-normalized rows. -/
noncomputable def cosineSim (u v : List ℝ) : ℝ :=
  dotR (normalizeRow u) (normalizeRow v)

/-- The 8-entry emotion row of a song in graph-axis order, as fed to
`cosine_similarity` via `df[EMOTION_GRAPH]` (source line 305). -/
def emotionVec (s : Song) : List ℝ :=
  EMOTION_GRAPH.map (fun e => ((score s e : ℚ) : ℝ))

/-! ### Similarity ranking (source lines 302-322) -/

/-- Descending-similarity order on (song, similarity) pairs. -/
def simGE (p q : Song × ℝ) : Prop := q.2 ≤ p.2

noncomputable instance : DecidableRel simGE :=
  fun p q => inferInstanceAs (Decidable (q.2 ≤ p.2))

/-- Source lines 302-319: attach a similarity column
(`df_emotion["similarity"] = similarities`), sort it descending
(`sort_values(by="similarity", ascending=False)`), then drop the
selected songs (`~df_similarity["曲名"].isin(options)` — note `曲名` is a
copy of `track_name`).  Exclusion happens after the sort. -/
noncomputable def rank_by_similarity
    (values : List ℝ) (exclude : List String) (df : List Song) :
    List (Song × ℝ) :=
  let df_emotion := df.map (fun s => (s, cosineSim values (emotionVec s)))
  let top_similar_df := List.insertionSort simGE df_emotion
  top_similar_df.filter (fun p => !(exclude.contains p.1.track_name))

/-- `df["順位"] = range(1, len(df) + 1)`: pair each row with its 1-based
position (the source then renders the number with a `位` suffix, which is
presentation only). -/
def rankNumbers (l : List α) : List (ℕ × α) :=
  (List.range' 1 l.length).zip l

/-- The similarity view with its rank column (source lines 320-322). -/
noncomputable def similarity_view
    (values : List ℝ) (exclude : List String) (df : List Song) :
    List (ℕ × (Song × ℝ)) :=
  rankNumbers (rank_by_similarity values exclude df)

/-! ### Emotion ranking view (source lines 405-415) -/

/-- The names of the eight rationale columns: each emotion label with
the suffix スコアの理由 (source lines 253 and 495 read them by these
names). -/
def REASON_COLUMNS : List String :=
  EMOTION_LIST.map (fun c => c ++ "スコアの理由")

/-- The columns of the loaded frame: the input schema (`track_name`,
`image_urls`, the eight emotion-score columns, the eight rationale
columns) plus the two columns `load_df` adds (`曲名` on source line 128,
`converted_image_urls` on line 130).  `df.sort_values(e, ...)` succeeds
exactly when `e` is one of these and raises a `KeyError` otherwise. -/
def DF_COLUMNS : List String :=
  ["track_name", "image_urls"] ++ EMOTION_LIST ++ REASON_COLUMNS
    ++ ["曲名", "converted_image_urls"]

/-- The rationale text of song `s` in the rationale column `e`
(meaningful exactly when `e` is one of the eight rationale columns). -/
def reasonText (s : Song) (e : String) : String :=
  match REASON_COLUMNS.findIdx? (fun x => x == e) with
  | some i => s.reasons.getD i ""
  | none => ""

/-- The ascending comparison `df.sort_values` uses on the column `e`:
numeric on the eight emotion-score columns, lexicographic on the string
columns (`track_name` and its alias `曲名`, the two image-URL columns,
and the rationale columns). -/
def colLe (e : String) (s t : Song) : Prop :=
  if e ∈ EMOTION_LIST then score s e ≤ score t e
  else if e = "track_name" ∨ e = "曲名" then s.track_name ≤ t.track_name
  else if e = "image_urls" then s.image_urls ≤ t.image_urls
  else if e = "converted_image_urls" then
    s.converted_image_urls ≤ t.converted_image_urls
  else reasonText s e ≤ reasonText t e

instance (e : String) (s t : Song) : Decidable (colLe e s t) :=
  inferInstanceAs (Decidable (if _ then _ else if _ then _ else
    if _ then _ else if _ then _ else _))

/-- The sort relation of `df.sort_values(e, ascending=flg)`. -/
def colRel (e : String) (asc : Bool) (s t : Song) : Prop :=
  match asc with
  | true => colLe e s t
  | false => colLe e t s

instance (e : String) (asc : Bool) : DecidableRel (colRel e asc) :=
  fun s t => by
    cases asc
    · exact inferInstanceAs (Decidable (colLe e t s))
    · exact inferInstanceAs (Decidable (colLe e s t))

/-- Source lines 405-415: sort the catalog by the chosen column and
attach the 1-based rank column.  `df.sort_values(e, ...)` raises a
`KeyError` (modelled by `none`) exactly when `e` is not a column of the
loaded frame; on any frame column, the emotion-score columns included,
it succeeds.  (The selectbox of source lines 383-390 only ever offers
the eight labels of `EMOTION_LIST`.) -/
def rank_by_emotion (e : String) (asc : Bool) (df : List Song) :
    Option (List (ℕ × Song)) :=
  if e ∈ DF_COLUMNS then
    some (rankNumbers (List.insertionSort (colRel e asc) df))
  else none

/-! ### Derived-view blocks with explicit catalog state (for the frame
property).  Each block returns the catalog variable `df` as it stands
after the block ran, together with the computed view.  In the source,
every pandas operation involved returns a copy (`df[cols]` column
selection, `df.loc[list]`, `df.sort_values(...)` with the default
`inplace=False`), and the in-place column assignments target those
copies (`df_emotion`, `df_similarity`, `df_selected_emotion`), never
`df` itself, so `df` is never reassigned nor mutated after `load_df`. -/

/-- Source lines 183-285: restrict to the selected songs when a selection
exists (full catalog otherwise) and aggregate. -/
def aggregate_block (df : List Song) (options : List String) :
    List Song × Option (List ℤ) :=
  let selected_df :=
    if options.isEmpty then df
    else df.filter (fun s => options.contains s.track_name)
  (df, aggregate selected_df)

/-- Source lines 302-322 as a state-passing block. -/
noncomputable def similarity_block
    (df : List Song) (values : List ℝ) (options : List String) :
    List Song × List (ℕ × (Song × ℝ)) :=
  (df, similarity_view values options df)

/-- Source lines 405-415 as a state-passing block. -/
def emotion_rank_block (df : List Song) (e : String) (asc : Bool) :
    List Song × Option (List (ℕ × Song)) :=
  (df, rank_by_emotion e asc df)

/-- The single-quote character as a string, for building concrete
double-encoded image-reference fields. -/
def sq : String := String.mk [squote]

/-- The double-quote character as a string. -/
def dq : String := String.mk [dquote]

/-- A concrete well-formed double-encoded image-reference field:
a stringified list containing the stringified list of one URL. -/
def goodRow : String :=
  "[" ++ dq ++ "[" ++ sq ++ "u1" ++ sq ++ ", " ++ sq ++ "u2" ++ sq ++ "]"
    ++ dq ++ "]"

/-- One step of the running first-maximum: keep the current candidate
unless the new pair has a strictly larger value. -/
def step2 (a : Option (String × ℤ)) (x : String × ℤ) :
    Option (String × ℤ) :=
  match a with
  | none => some x
  | some y => if y.2 < x.2 then some x else some y

/-- The running first-maximum of a list of pairs (by value). -/
def runMax (h : Option (String × ℤ)) (l : List (String × ℤ)) :
    Option (String × ℤ) :=
  l.foldl step2 h

end Aiko

namespace Aiko

/-! ### Helper lemmas -/

/-- The rank column attached by `rankNumbers` is exactly the contiguous
sequence `1, 2, ..., length`. -/
theorem rankNumbers_map_fst (l : List α) :
    (rankNumbers l).map Prod.fst = List.range' 1 l.length := by
  unfold rankNumbers
  exact List.map_fst_zip _ _ (by rw [List.length_range'])

/-- The dot product against an all-zero row is zero. -/
theorem dotR_replicate_zero (n : ℕ) (w : List ℝ) :
    dotR (List.replicate n 0) w = 0 := by
  induction n generalizing w with
  | zero => simp [dotR]
  | succ n ih =>
    cases w with
    | nil => simp [dotR]
    | cons a w =>
      simp only [dotR, List.replicate_succ, List.zipWith_cons_cons,
        List.sum_cons, zero_mul, zero_add]
      exact ih w

/-- sklearn `normalize` leaves the all-zero row unchanged (its zero norm
is replaced by the divisor 1). -/
theorem normalizeRow_replicate_zero (n : ℕ) :
    normalizeRow (List.replicate n (0 : ℝ)) = List.replicate n 0 := by
  unfold normalizeRow guardNorm
  rw [if_pos (dotR_replicate_zero n _)]
  simp

end Aiko

/-- Claim C7: aggregation over the empty set of songs fails (the column
means are undefined and the integer cast raises); it does not silently
return a default vector. -/
theorem Aiko.aggregate_empty_fails : Aiko.aggregate [] = none := rfl

/-- Counterexample to claim C8 as stated: "track_name" is not one of
the 8 recognized emotion labels, yet the ranking succeeds on it, because
`df.sort_values` accepts every column of the frame, not only the eight
emotion-score columns. -/
theorem Aiko.rank_by_emotion_nonemotion_column_succeeds :
    "track_name" ∉ Aiko.EMOTION_LIST ∧
      Aiko.rank_by_emotion "track_name" false
        [⟨"A", "x", "u", [10, 20, 30, 40, 50, 60, 70, 80], []⟩] =
      some [(1, ⟨"A", "x", "u", [10, 20, 30, 40, 50, 60, 70, 80], []⟩)] := by
  constructor
  · decide
  · decide

/-- Claim C8 (amended): the emotion ranking operation fails exactly when
the requested label is not a column of the loaded frame; a label outside
the 8 emotion labels that is still a frame column (such as `track_name`,
`曲名`, the image-URL columns or a rationale column) sorts successfully
instead of failing.  (In the app the selectbox restricts the choice to
the 8 emotion labels.) -/
theorem Aiko.rank_by_emotion_failure_condition :
    ∀ (e : String) (asc : Bool) (df : List Aiko.Song),
      (e ∉ Aiko.DF_COLUMNS → Aiko.rank_by_emotion e asc df = none) ∧
      (e ∈ Aiko.DF_COLUMNS →
        ∃ l, Aiko.rank_by_emotion e asc df = some l) := by
  intro e asc df
  constructor
  · intro he
    unfold rank_by_emotion
    exact if_neg he
  · intro he
    refine ⟨Aiko.rankNumbers (List.insertionSort (Aiko.colRel e asc) df), ?_⟩
    unfold rank_by_emotion
    exact if_pos he

/-- Witness for the amended C8: the label "unknown" is no frame column
and fails; the non-emotion frame column "track_name" succeeds. -/
theorem Aiko.rank_by_emotion_failure_condition_witness :
    (("unknown" ∉ Aiko.DF_COLUMNS) ∧
      Aiko.rank_by_emotion "unknown" true [] = none) ∧
    (("track_name" ∈ Aiko.DF_COLUMNS) ∧
      ∃ l, Aiko.rank_by_emotion "track_name" true [] = some l) :=
  ⟨⟨by decide, (Aiko.rank_by_emotion_failure_condition "unknown" true []).1
      (by decide)⟩,
    ⟨by decide, (Aiko.rank_by_emotion_failure_condition "track_name" true []).2
      (by decide)⟩⟩

/-- Claim C9: every derived-view computation (aggregation, similarity
ranking, emotion ranking), whether it succeeds or fails, leaves the
loaded catalog unchanged: the catalog component returned by each block
equals the catalog it was given.  (In the source all the pandas
operations involved return copies, and the in-place column assignments
target those copies, never the loaded `df`.) -/
theorem Aiko.derived_views_preserve_catalog :
    ∀ (df : List Aiko.Song) (options : List String) (values : List ℝ)
      (e : String) (asc : Bool),
      (Aiko.aggregate_block df options).1 = df ∧
      (Aiko.similarity_block df values options).1 = df ∧
      (Aiko.emotion_rank_block df e asc).1 = df :=
  fun _ _ _ _ _ => ⟨rfl, rfl, rfl⟩

/-- Claim C6: the cosine similarity of the all-zero reference vector
against any catalog row is 0 (not NaN): the zero-norm division is
guarded (the zero norm is replaced by the divisor 1, after sklearn). -/
theorem Aiko.cosineSim_zero_vector :
    ∀ w : List ℝ, Aiko.cosineSim [0, 0, 0, 0, 0, 0, 0, 0] w = 0 := by
  intro w
  have h8 : ([0, 0, 0, 0, 0, 0, 0, 0] : List ℝ) = List.replicate 8 0 := rfl
  unfold cosineSim
  rw [h8, Aiko.normalizeRow_replicate_zero, Aiko.dotR_replicate_zero]

/-- Claim C4: for every reference vector and exclusion set, no excluded
track appears in the similarity ranking output, and the output equals
the unexcluded ranking with the excluded songs deleted afterwards
(exclusion happens after ranking and does not disturb relative order). -/
theorem Aiko.similarity_exclusion_after_ranking :
    ∀ (values : List ℝ) (exclude : List String) (df : List Aiko.Song),
      (∀ p ∈ Aiko.rank_by_similarity values exclude df,
          exclude.contains p.1.track_name = false) ∧
      Aiko.rank_by_similarity values exclude df =
        (Aiko.rank_by_similarity values [] df).filter
          (fun p => !(exclude.contains p.1.track_name)) := by
  intro v E df
  constructor
  · intro p hp
    have h := (List.mem_filter.mp hp).2
    simpa using h
  · unfold rank_by_similarity
    simp

namespace Aiko

/-- A song with entrywise nonnegative stored scores has a nonnegative
score on every column. -/
theorem score_nonneg (s : Song) (e : String)
    (h : ∀ q ∈ s.scores, 0 ≤ q) : 0 ≤ score s e := by
  unfold score
  cases labelIdx e with
  | none => exact le_refl 0
  | some i =>
    show 0 ≤ s.scores.getD i 0
    rcases Nat.lt_or_ge i s.scores.length with hi | hi
    · rw [List.getD_eq_getElem s.scores 0 hi]
      exact h _ (List.getElem_mem hi)
    · rw [List.getD_eq_default s.scores 0 hi]

/-- Column means over a list of songs with scores bounded in `[0, 100]`
are nonnegative. -/
theorem meanScore_nonneg (l : List Song) (e : String)
    (h : ∀ s ∈ l, ∀ q ∈ s.scores, 0 ≤ q ∧ q ≤ 100) :
    0 ≤ meanScore l e := by
  unfold meanScore
  apply div_nonneg
  · apply List.sum_nonneg
    intro x hx
    rcases List.mem_map.mp hx with ⟨s, hs, rfl⟩
    exact score_nonneg s e (fun q hq => (h s hs q hq).1)
  · exact Nat.cast_nonneg _

/-- Column means are invariant under permutation of the songs. -/
theorem meanScore_perm (l l' : List Song) (e : String) (hp : l.Perm l') :
    meanScore l e = meanScore l' e := by
  unfold meanScore
  rw [(hp.map (fun s => score s e)).sum_eq, hp.length_eq]

end Aiko

/-- Claim C1: for every non-empty subset of the catalog (with scores in
`[0, 100]`), the aggregation returns an 8-tuple in which each value is
the floor of the arithmetic mean of that label's scores (the truncation
toward zero coincides with the floor on the nonnegative means), and the
result is invariant under reordering of the subset. -/
theorem Aiko.aggregate_floor_mean_perm_invariant :
    ∀ (l l' : List Aiko.Song), l ≠ [] →
      (∀ s ∈ l, ∀ q ∈ s.scores, 0 ≤ q ∧ q ≤ 100) →
      l.Perm l' →
      ∃ v, Aiko.aggregate l = some v ∧ v.length = 8 ∧
        v = Aiko.EMOTION_GRAPH.map (fun e => ⌊Aiko.meanScore l e⌋) ∧
        Aiko.aggregate l' = Aiko.aggregate l := by
  intro l l' hl hbound hp
  have hl' : l' ≠ [] := fun h => hl (List.Perm.eq_nil (h ▸ hp))
  have hle : l.isEmpty = false := List.isEmpty_eq_false.mpr hl
  have hle' : l'.isEmpty = false := List.isEmpty_eq_false.mpr hl'
  have hmap : Aiko.EMOTION_GRAPH.map (fun e => Aiko.ratTrunc (Aiko.meanScore l e)) =
      Aiko.EMOTION_GRAPH.map (fun e => ⌊Aiko.meanScore l e⌋) := by
    apply List.map_congr_left
    intro e _
    unfold ratTrunc
    exact if_pos (Aiko.meanScore_nonneg l e hbound)
  refine ⟨Aiko.EMOTION_GRAPH.map (fun e => Aiko.ratTrunc (Aiko.meanScore l e)),
    ?_, ?_, ?_, ?_⟩
  · unfold aggregate
    rw [hle]
    rfl
  · simp [Aiko.EMOTION_GRAPH]
  · exact hmap
  · unfold aggregate
    rw [hle, hle']
    simp only [Bool.false_eq_true, if_false]
    congr 1
    apply List.map_congr_left
    intro e _
    rw [Aiko.meanScore_perm l l' e hp]

/-- Witness for C1: a concrete two-song catalog and its transposition. -/
theorem Aiko.aggregate_floor_mean_perm_invariant_witness :
    (([⟨"A", "x", "u", [10, 20, 30, 40, 50, 60, 70, 80], []⟩,
       ⟨"B", "y", "v", [15, 25, 35, 45, 55, 65, 75, 86], []⟩] : List Aiko.Song) ≠ [])
    ∧ ∃ v, Aiko.aggregate
        [⟨"A", "x", "u", [10, 20, 30, 40, 50, 60, 70, 80], []⟩,
         ⟨"B", "y", "v", [15, 25, 35, 45, 55, 65, 75, 86], []⟩] = some v ∧
      v.length = 8 ∧
      v = Aiko.EMOTION_GRAPH.map (fun e => ⌊Aiko.meanScore
        [⟨"A", "x", "u", [10, 20, 30, 40, 50, 60, 70, 80], []⟩,
         ⟨"B", "y", "v", [15, 25, 35, 45, 55, 65, 75, 86], []⟩] e⌋) ∧
      Aiko.aggregate
        [⟨"B", "y", "v", [15, 25, 35, 45, 55, 65, 75, 86], []⟩,
         ⟨"A", "x", "u", [10, 20, 30, 40, 50, 60, 70, 80], []⟩] =
      Aiko.aggregate
        [⟨"A", "x", "u", [10, 20, 30, 40, 50, 60, 70, 80], []⟩,
         ⟨"B", "y", "v", [15, 25, 35, 45, 55, 65, 75, 86], []⟩] :=
  ⟨by decide, Aiko.aggregate_floor_mean_perm_invariant _ _ (by decide) (by decide)
    (List.Perm.swap _ _ _)⟩

/-- Counterexample to claim C3 as stated: on a record whose raw
image-reference field fails the first parse step, `load_df` aborts the
whole load (the exception propagates); no record with the sentinel
"unavailable" is produced. -/
theorem Aiko.convert_sentinel_counterexample :
    Aiko.convert_image_urls "oops" = none ∧
      Aiko.load_df [⟨"song", "oops", [50, 50, 50, 50, 50, 50, 50, 50], []⟩]
        = none := by
  constructor
  · rfl
  · rfl

/-- Claim C3 (amended): if the raw image-reference field of any record
fails either parse step or yields an empty result, the failure
propagates and the whole load fails (no sentinel is substituted); for
well-formed double-encoded inputs the extraction returns the first
element of the innermost list. -/
theorem Aiko.load_error_propagation :
    (∀ (recs : List Aiko.RawRecord) (r : Aiko.RawRecord), r ∈ recs →
        Aiko.convert_image_urls r.image_urls = none →
        Aiko.load_df recs = none) ∧
    (∀ (row s : String) (rest : List String) (u : String)
        (rest2 : List String),
        Aiko.literal_eval_strList row = some (s :: rest) →
        Aiko.literal_eval_strList s = some (u :: rest2) →
        Aiko.convert_image_urls row = some u) := by
  constructor
  · intro recs
    induction recs with
    | nil => intro r hr; exact absurd hr (List.not_mem_nil r)
    | cons a recs ih =>
      intro r hr hconv
      rcases List.mem_cons.mp hr with rfl | hr
      · unfold load_df
        rw [hconv]
      · unfold load_df
        cases convert_image_urls a.image_urls with
        | none => rfl
        | some url => rw [ih r hr hconv]
  · intro row s rest u rest2 h1 h2
    simp only [convert_image_urls, h1, h2]

/-- Witness for the amended C3: a concrete two-record load where the
second record is malformed (the load fails), and a concrete well-formed
field whose extraction yields the first innermost URL. -/
theorem Aiko.load_error_propagation_witness :
    (Aiko.load_df
        [⟨"good", Aiko.goodRow, [1, 2, 3, 4, 5, 6, 7, 8], []⟩,
         ⟨"bad", "oops", [9, 9, 9, 9, 9, 9, 9, 9], []⟩] = none) ∧
    Aiko.convert_image_urls Aiko.goodRow = some "u1" :=
  ⟨Aiko.load_error_propagation.1 _
      ⟨"bad", "oops", [9, 9, 9, 9, 9, 9, 9, 9], []⟩ (by decide) (by decide),
    Aiko.load_error_propagation.2 Aiko.goodRow
      ("[" ++ Aiko.sq ++ "u1" ++ Aiko.sq ++ ", " ++ Aiko.sq ++ "u2"
        ++ Aiko.sq ++ "]")
      [] "u1" ["u2"] (by decide) (by decide)⟩

/-- Claim C5: for every emotion label and sort direction the emotion
ranking assigns 1-based rank positions forming the contiguous sequence
`1..N` over the sorted catalog (no gaps, no repeats, regardless of
ties), and the rank column of the similarity ranking after exclusion is
likewise `1..M` for `M` the number of remaining songs. -/
theorem Aiko.rank_positions_contiguous :
    ∀ (e : String) (asc : Bool) (df : List Aiko.Song) (values : List ℝ)
      (exclude : List String),
      e ∈ Aiko.EMOTION_LIST →
      (∃ l, Aiko.rank_by_emotion e asc df = some l ∧
        l.map Prod.fst = List.range' 1 df.length) ∧
      (Aiko.similarity_view values exclude df).map Prod.fst =
        List.range' 1 (Aiko.rank_by_similarity values exclude df).length := by
  intro e asc df v E he
  have hcol : e ∈ Aiko.DF_COLUMNS :=
    List.mem_append.mpr (Or.inl (List.mem_append.mpr (Or.inl
      (List.mem_append.mpr (Or.inr he)))))
  constructor
  · refine ⟨Aiko.rankNumbers (List.insertionSort (Aiko.colRel e asc) df),
      ?_, ?_⟩
    · unfold rank_by_emotion
      rw [if_pos hcol]
    · rw [Aiko.rankNumbers_map_fst,
        (List.perm_insertionSort (Aiko.colRel e asc) df).length_eq]
  · exact Aiko.rankNumbers_map_fst _

/-- Witness for C5 at the concrete label "喜び" and an empty catalog. -/
theorem Aiko.rank_positions_contiguous_witness :
    "喜び" ∈ Aiko.EMOTION_LIST ∧
    ((∃ l, Aiko.rank_by_emotion "喜び" false [] = some l ∧
        l.map Prod.fst = List.range' 1 ([] : List Aiko.Song).length) ∧
      (Aiko.similarity_view [] [] []).map Prod.fst =
        List.range' 1 (Aiko.rank_by_similarity [] [] []).length) :=
  ⟨by decide, Aiko.rank_positions_contiguous "喜び" false [] [] [] (by decide)⟩

namespace Aiko

/-- The head of a descending stable insertion only changes when the new
element is strictly larger than the current head. -/
theorem head_pyInsertDesc (x : String × ℤ) (acc : List (String × ℤ)) :
    (pyInsertDesc x acc).head? = step2 acc.head? x := by
  cases acc with
  | nil => rfl
  | cons y ys =>
    show (if y.2 < x.2 then x :: y :: ys else y :: pyInsertDesc x ys).head?
      = if y.2 < x.2 then some x else some y
    by_cases h : y.2 < x.2
    · rw [if_pos h, if_pos h]; rfl
    · rw [if_neg h, if_neg h]; rfl

/-- The head of the fold of descending stable insertions is the running
first-maximum seeded with the head of the accumulator. -/
theorem head_foldl_pyInsertDesc (l : List (String × ℤ))
    (acc : List (String × ℤ)) :
    (l.foldl (fun a x => pyInsertDesc x a) acc).head? =
      runMax acc.head? l := by
  induction l generalizing acc with
  | nil => rfl
  | cons x l ih =>
    show ((l.foldl (fun a x => pyInsertDesc x a) (pyInsertDesc x acc))).head?
      = runMax acc.head? (x :: l)
    rw [ih (pyInsertDesc x acc), head_pyInsertDesc]
    rfl

/-- The running first-maximum seeded with `y` finds an element that is
maximal in `y :: l`, and every element strictly before it is strictly
smaller. -/
theorem runMax_spec (l : List (String × ℤ)) (y : String × ℤ) :
    ∃ p l₁ l₂, runMax (some y) l = some p ∧ y :: l = l₁ ++ p :: l₂ ∧
      (∀ q ∈ l₁, q.2 < p.2) ∧ (∀ q ∈ y :: l, q.2 ≤ p.2) := by
  induction l generalizing y with
  | nil =>
    exact ⟨y, [], [], rfl, rfl, by simp, by simp⟩
  | cons x l ih =>
    have hstep : runMax (some y) (x :: l) =
        runMax (if y.2 < x.2 then some x else some y) l := rfl
    by_cases hxy : y.2 < x.2
    · rcases ih x with ⟨p, l₁, l₂, hrun, hdec, hlt, hle⟩
      refine ⟨p, y :: l₁, l₂, ?_, ?_, ?_, ?_⟩
      · rw [hstep, if_pos hxy]; exact hrun
      · rw [List.cons_append, ← hdec]
      · intro q hq
        rcases List.mem_cons.mp hq with rfl | hq
        · exact lt_of_lt_of_le hxy (hle x (List.mem_cons_self x l))
        · exact hlt q hq
      · intro q hq
        rcases List.mem_cons.mp hq with rfl | hq
        · exact le_of_lt (lt_of_lt_of_le hxy (hle x (List.mem_cons_self x l)))
        · exact hle q hq
    · rcases ih y with ⟨p, l₁, l₂, hrun, hdec, hlt, hle⟩
      have hxle : x.2 ≤ y.2 := le_of_not_lt hxy
      cases l₁ with
      | nil =>
        have hpy : y = p := by
          have := hdec
          rw [List.nil_append] at this
          exact (List.cons.injEq _ _ _ _ ▸ this).1
        refine ⟨p, [], x :: l, ?_, ?_, ?_, ?_⟩
        · rw [hstep, if_neg hxy]; exact hrun
        · rw [List.nil_append, hpy]
        · simp
        · intro q hq
          rcases List.mem_cons.mp hq with rfl | hq
          · exact hle q (List.mem_cons_self _ _)
          · rcases List.mem_cons.mp hq with rfl | hq
            · exact le_trans hxle (hpy ▸ le_refl p.2)
            · exact hle q (List.mem_cons_of_mem _ hq)
      | cons z l₁ =>
        have hz : z = y ∧ l = l₁ ++ p :: l₂ := by
          rw [List.cons_append] at hdec
          exact ⟨((List.cons.injEq _ _ _ _ ▸ hdec).1).symm,
            (List.cons.injEq _ _ _ _ ▸ hdec).2⟩
        refine ⟨p, y :: x :: l₁, l₂, ?_, ?_, ?_, ?_⟩
        · rw [hstep, if_neg hxy]; exact hrun
        · rw [hz.2]; rfl
        · intro q hq
          have hy : y.2 < p.2 := hz.1 ▸ hlt z (List.mem_cons_self _ _)
          rcases List.mem_cons.mp hq with rfl | hq
          · exact hy
          · rcases List.mem_cons.mp hq with rfl | hq
            · exact lt_of_le_of_lt hxle hy
            · exact hlt q (List.mem_cons_of_mem _ hq)
        · intro q hq
          have hy : y.2 < p.2 := hz.1 ▸ hlt z (List.mem_cons_self _ _)
          rcases List.mem_cons.mp hq with rfl | hq
          · exact le_of_lt hy
          · rcases List.mem_cons.mp hq with rfl | hq
            · exact le_of_lt (lt_of_le_of_lt hxle hy)
            · exact hle q (List.mem_cons_of_mem _
                (by rw [hz.2] at hq ⊢; exact hq))

end Aiko

namespace Aiko

/-- The head of the Python stable descending sort is an element of
maximal value, and the first such element of the input. -/
theorem pySortedDesc_head_spec (l : List (String × ℤ)) (x : String × ℤ)
    (xs : List (String × ℤ)) (hl : l = x :: xs) :
    ∃ p l₁ l₂, (pySortedDesc l).head? = some p ∧ l = l₁ ++ p :: l₂ ∧
      (∀ q ∈ l₁, q.2 < p.2) ∧ (∀ q ∈ l, q.2 ≤ p.2) := by
  subst hl
  have h1 : (pySortedDesc (x :: xs)).head? = runMax (some x) xs := by
    unfold pySortedDesc
    rw [head_foldl_pyInsertDesc]
    rfl
  rcases runMax_spec xs x with ⟨p, l₁, l₂, hrun, hdec, hlt, hle⟩
  exact ⟨p, l₁, l₂, by rw [h1, hrun], hdec, hlt, hle⟩

end Aiko

/-- Claim C10: for every non-empty selection of songs, the reported top
emotion is a pair (label, truncated mean) whose value is maximal among
the 8 aggregated values, and it is the earliest such pair in the fixed
graph-axis order of `EMOTION_GRAPH` (the Python sort over the zipped
pairs is stable, also under `reverse=True`). -/
theorem Aiko.top_emotion_first_max :
    ∀ songs : List Aiko.Song, songs ≠ [] →
      ∃ v p l₁ l₂, Aiko.aggregate songs = some v ∧
        Aiko.topEmotion v = some p ∧
        Aiko.EMOTION_GRAPH.zip v = l₁ ++ p :: l₂ ∧
        (∀ q ∈ l₁, q.2 < p.2) ∧
        (∀ q ∈ Aiko.EMOTION_GRAPH.zip v, q.2 ≤ p.2) := by
  intro songs hs
  have hle0 : songs.isEmpty = false := List.isEmpty_eq_false.mpr hs
  have hagg : Aiko.aggregate songs = some (Aiko.EMOTION_GRAPH.map
      (fun e => Aiko.ratTrunc (Aiko.meanScore songs e))) := by
    unfold aggregate
    rw [hle0]
    rfl
  have hlen : (Aiko.EMOTION_GRAPH.zip (Aiko.EMOTION_GRAPH.map
      (fun e => Aiko.ratTrunc (Aiko.meanScore songs e)))).length = 8 := by
    rw [List.length_zip, List.length_map]
    decide
  cases hz : Aiko.EMOTION_GRAPH.zip (Aiko.EMOTION_GRAPH.map
      (fun e => Aiko.ratTrunc (Aiko.meanScore songs e))) with
  | nil =>
    rw [hz] at hlen
    exact absurd hlen (by decide)
  | cons x xs =>
    rcases Aiko.pySortedDesc_head_spec _ x xs hz with
      ⟨p, l₁, l₂, hhead, hdec, hlt, hle⟩
    exact ⟨Aiko.EMOTION_GRAPH.map
        (fun e => Aiko.ratTrunc (Aiko.meanScore songs e)),
      p, l₁, l₂, hagg, hhead, hdec, hlt, hle⟩

/-- Witness for C10 at a concrete one-song selection. -/
theorem Aiko.top_emotion_first_max_witness :
    (([⟨"A", "x", "u", [10, 20, 30, 40, 50, 60, 70, 80], []⟩] :
        List Aiko.Song) ≠ []) ∧
    ∃ v p l₁ l₂,
      Aiko.aggregate [⟨"A", "x", "u", [10, 20, 30, 40, 50, 60, 70, 80], []⟩]
        = some v ∧
      Aiko.topEmotion v = some p ∧
      Aiko.EMOTION_GRAPH.zip v = l₁ ++ p :: l₂ ∧
      (∀ q ∈ l₁, q.2 < p.2) ∧
      (∀ q ∈ Aiko.EMOTION_GRAPH.zip v, q.2 ≤ p.2) :=
  ⟨by decide, Aiko.top_emotion_first_max _ (by decide)⟩
